import Mathlib

/-!
# PDFSlipPrint: paper-size selection, argument resolution and the print job

A shallow embedding of `src/PDFSlipPrint.cpp`.

* `double` is IEEE 754 binary64: a finite value is a mantissa and a binary exponent,
  and every multiplication and division is rounded to the nearest representable
  value, ties to even, each operation on its own (no extended precision). The
  conversion of a `double` to `short` or `int` truncates toward zero, as in C++.
* The Windows spooler, GDI and PDFium are external: every answer they can give is
  a field of `Env`, and every call the program makes is recorded as an `Event`.
-/

namespace PDFSlipPrint

/-! ## Machine numbers -/

/-- A finite `double`: the number `mant * 2 ^ exp`. The same number has several such
forms; the operations below depend on the number only. -/
structure Double where
  mant : Int
  exp : Int
deriving DecidableEq, Repr

/-- Conversion `int -> double`, exact for every 32-bit integer. -/
def Double.ofInt (z : Int) : Double := ⟨z, 0⟩

/-- The number as a fraction: numerator and positive denominator. -/
def Double.toFrac (x : Double) : Int × Nat :=
  if x.exp ≥ 0 then (x.mant * 2 ^ x.exp.toNat, 1) else (x.mant, 2 ^ (-x.exp).toNat)

/-- The number as a rational, for statements about the exact value. -/
def Double.toRat (x : Double) : ℚ := (x.toFrac.1 : ℚ) / (x.toFrac.2 : ℚ)

/-- Binary logarithm of a natural number, rounded down, by repeated halving. -/
def log2Fuel : Nat → Nat → Nat
  | 0, _ => 0
  | fuel + 1, n => if n ≥ 2 then log2Fuel fuel (n / 2) + 1 else 0

def bitLog2 (n : Nat) : Nat := log2Fuel n n

/-- The integer `k` with `2 ^ k ≤ a / d < 2 ^ (k + 1)`, for positive `a` and `d`. -/
def floorLog2 (a d : Nat) : Int :=
  let t : Int := (bitLog2 a : Int) - (bitLog2 d : Int)
  if (if t ≥ 0 then d * 2 ^ t.toNat ≤ a else d ≤ a * 2 ^ (-t).toNat) then t else t - 1

/-- Rounding of the fraction `n / d` to binary64: 53 significant bits (fewer below
`2 ^ -1022`, the subnormal range), to nearest, ties to even. A result beyond the
largest finite `double` is an infinity in the program; here it stays a rounded
number, which like an infinity is outside the range of `short` and `int`. -/
def roundRat (n : Int) (d : Nat) : Double :=
  if n = 0 ∨ d = 0 then ⟨0, 0⟩
  else
    let a := n.natAbs
    -- exponent of the last kept bit
    let u := max (floorLog2 a d) (-1022) - 52
    let num := if u ≤ 0 then a * 2 ^ (-u).toNat else a
    let den := if u ≤ 0 then d else d * 2 ^ u.toNat
    let q := num / den
    let r := num % den
    let m := if 2 * r > den ∨ (2 * r = den ∧ q % 2 = 1) then q + 1 else q
    ⟨if n < 0 then -(m : Int) else (m : Int), u⟩

/-- The product `a * b` of two `double`s. -/
def fmul (a b : Double) : Double :=
  roundRat (a.toFrac.1 * b.toFrac.1) (a.toFrac.2 * b.toFrac.2)

/-- The quotient `a / b` of two `double`s, for a divisor that is not zero. -/
def fdiv (a b : Double) : Double :=
  roundRat (if b.toFrac.1 < 0 then -(a.toFrac.1 * b.toFrac.2) else a.toFrac.1 * b.toFrac.2)
    (a.toFrac.2 * b.toFrac.1.natAbs)

/-- The literal `25.4`: the `double` nearest to 254/10. -/
def literal_25_4 : Double := roundRat 254 10

/-- Whether a number is a finite binary64 value: rounding leaves it unchanged and it
is below `2 ^ 1024`. -/
def Double.isBinary64 (x : Double) : Bool :=
  let r := roundRat x.toFrac.1 x.toFrac.2
  decide (r.toFrac.1 * x.toFrac.2 = x.toFrac.1 * r.toFrac.2) &&
    decide (bitLog2 (x.toFrac.1.natAbs / x.toFrac.2) < 1024)

/-- Truncation toward zero, the value kept by a C++ conversion from `double` to an
integer type. -/
def truncate (x : Double) : Int :=
  if x.exp ≥ 0 then x.mant * 2 ^ x.exp.toNat else Int.tdiv x.mant (2 ^ (-x.exp).toNat)

/-- Reduction of an integer to the two's-complement range of a signed type of the
given bit width. -/
def wrapSigned (bits : Nat) (z : Int) : Int :=
  (z + 2 ^ (bits - 1)) % 2 ^ bits - 2 ^ (bits - 1)

/-- Conversion `double -> short`. A value that does not fit is undefined behaviour
in C++; the model keeps the low 16 bits. -/
def toShort (x : Double) : Int := wrapSigned 16 (truncate x)

/-- Conversion `double -> int` (`static_cast<int>`); the model keeps the low 32 bits. -/
def toInt (x : Double) : Int := wrapSigned 32 (truncate x)

/-! ## Windows SDK constants (wingdi.h, winnls.h) -/

def DMPAPER_A4 : Int := 9
def DMPAPER_USER : Int := 256
def DMORIENT_PORTRAIT : Int := 1
def DMORIENT_LANDSCAPE : Int := 2
def DM_ORIENTATION : Nat := 0x1
def DM_PAPERLENGTH : Nat := 0x4
def DM_PAPERWIDTH : Nat := 0x8
def CP_UTF8 : Nat := 65001

/-! ## Data model -/

/-- The members of `DEVMODEW` that the program reads or writes. -/
structure DEVMODEW where
  dmFields : Nat
  dmOrientation : Int
  dmPaperSize : Int
  dmPaperLength : Int
  dmPaperWidth : Int
deriving DecidableEq, Repr

/-- A loaded PDF page: the finite `double`s that `FPDF_GetPageWidth` and
`FPDF_GetPageHeight` answer for it, in points. A null handle is
`none : Option FPDF_PAGE`. -/
structure FPDF_PAGE where
  width : Double
  height : Double
deriving DecidableEq, Repr

def FPDF_GetPageWidth (page : FPDF_PAGE) : Double := page.width

def FPDF_GetPageHeight (page : FPDF_PAGE) : Double := page.height

/-! ## SetCustomPaperSize (lines 162-192) -/

/-- The right-hand side of line 167, `(FPDF_GetPageWidth(page)* 10 * 25.4) / 72.0`:
two multiplications and a division, each rounded. -/
def widthTenthMM (page : FPDF_PAGE) : Double :=
  fdiv (fmul (fmul (FPDF_GetPageWidth page) (Double.ofInt 10)) literal_25_4) (Double.ofInt 72)

/-- The right-hand side of line 168, `(FPDF_GetPageHeight(page)* 10 * 25.4) / 72.0`. -/
def heightTenthMM (page : FPDF_PAGE) : Double :=
  fdiv (fmul (fmul (FPDF_GetPageHeight page) (Double.ofInt 10)) literal_25_4) (Double.ofInt 72)

/-- Line 167: `short pdfWidthTenthMM = (FPDF_GetPageWidth(page)* 10 * 25.4) / 72.0`. -/
def pdfWidthTenthMM (page : FPDF_PAGE) : Int := toShort (widthTenthMM page)

/-- Line 168: `short pdfHeightTenthMM = (FPDF_GetPageHeight(page)* 10 * 25.4) / 72.0`. -/
def pdfHeightTenthMM (page : FPDF_PAGE) : Int := toShort (heightTenthMM page)

def A4_WIDTH_TENTH_MM : Int := 2100

def A4_HEIGHT_TENTH_MM : Int := 2970

/-- The function `SetCustomPaperSize`. The result is the device mode behind
`pDevMode` after the call (`none` for a null pointer). The diagnostic line written
to standard output at line 163 is not part of the result. In the test of lines
176-177 the `int` sum is converted to `double` without rounding, so the comparison
with 25.0 is the comparison of the numbers. -/
def SetCustomPaperSize (pDevMode : Option DEVMODEW) (page : Option FPDF_PAGE) :
    Option DEVMODEW :=
  match pDevMode, page with
  | some dm, some pg =>
    let w := pdfWidthTenthMM pg
    let h := pdfHeightTenthMM pg
    let dm1 : DEVMODEW :=
      if (((|w - A4_WIDTH_TENTH_MM| + |h - A4_HEIGHT_TENTH_MM| : Int) : ℚ) < 25.0 ∨
          ((|w - A4_HEIGHT_TENTH_MM| + |h - A4_WIDTH_TENTH_MM| : Int) : ℚ) < 25.0) then
        { dm with dmPaperSize := DMPAPER_A4 }
      else
        let d1 := { dm with dmPaperSize := DMPAPER_USER }
        let d2 := { d1 with dmFields := d1.dmFields ||| (DM_PAPERWIDTH ||| DM_PAPERLENGTH) }
        let d3 := { d2 with dmPaperSize := DMPAPER_USER }
        let d4 := { d3 with dmPaperWidth := if w > h then h else w }
        let d5 := { d4 with dmPaperLength := if w > h then w else h }
        { d5 with dmFields := d5.dmFields ||| (DM_PAPERWIDTH ||| DM_PAPERLENGTH) }
    let dm2 := { dm1 with
      dmOrientation := if w > h then DMORIENT_LANDSCAPE else DMORIENT_PORTRAIT }
    some { dm2 with dmFields := dm2.dmFields ||| DM_ORIENTATION }
  | _, _ => pDevMode

/-! ## The environment: Windows and PDFium -/

/-- A printer device context: what `GetDeviceCaps` answers for it. -/
structure HDC where
  LOGPIXELSX : Int
  LOGPIXELSY : Int
  PHYSICALWIDTH : Int
  PHYSICALHEIGHT : Int
  HORZRES : Int
  VERTRES : Int
  PHYSICALOFFSETX : Int
  PHYSICALOFFSETY : Int
deriving DecidableEq, Repr

/-- A loaded PDF document: what `FPDF_GetPageCount` and `FPDF_LoadPage` answer for
it (`none` is a null page handle). -/
structure FPDF_DOCUMENT where
  pageCount : Int
  loadPage : Nat → Option FPDF_PAGE

def FPDF_GetPageCount (doc : FPDF_DOCUMENT) : Int := doc.pageCount

def FPDF_LoadPage (doc : FPDF_DOCUMENT) (pageIndex : Nat) : Option FPDF_PAGE :=
  doc.loadPage pageIndex

/-- Every answer the operating system and PDFium can give to the program. Strings
are C strings (no embedded terminator); `std::string` and `std::wstring` are both
`String`. -/
structure Env where
  /-- The code page returned by `GetConsoleCP()`. -/
  GetConsoleCP : Nat
  /-- The code page returned by `GetACP()`. -/
  GetACP : Nat
  /-- The code page returned by `GetConsoleOutputCP()`. -/
  GetConsoleOutputCP : Nat
  /-- The text `WideCharToMultiByte` produces for a code page and a wide string,
  `none` when the length it reports is not positive. -/
  WideCharToMultiByte : Nat → String → Option String
  /-- The text `MultiByteToWideChar` produces for a code page and a narrow string,
  `none` when the length it reports is not positive. -/
  MultiByteToWideChar : Nat → String → Option String
  /-- The value of `needed` after `GetDefaultPrinterW(NULL, &needed)`. -/
  defaultPrinterNeeded : Nat
  /-- The name written by the second `GetDefaultPrinterW` call, `none` when it fails. -/
  GetDefaultPrinterW : Option String
  /-- Whether `OpenPrinterW` succeeds for a printer name. -/
  OpenPrinterW : String → Bool
  /-- The `LONG` returned by `DocumentPropertiesW` with a zero mode (size query). -/
  documentPropertiesSize : String → Int
  /-- Whether `malloc` of the given size returns a non-null pointer. -/
  malloc : Nat → Bool
  /-- The device mode written by `DocumentPropertiesW` with `DM_OUT_BUFFER`, `none`
  when the call does not return `IDOK`. -/
  DocumentPropertiesW : String → Option DEVMODEW
  /-- The device context `CreateDCW` returns for a printer name and a device mode. -/
  CreateDCW : String → DEVMODEW → Option HDC
  /-- The value returned by `StartDocW`. -/
  StartDocW : HDC → Int
  /-- The value returned by `StartPage` when called for the page of a given index. -/
  StartPage : HDC → Nat → Int
  /-- The document `FPDF_LoadDocument` returns for a path. -/
  FPDF_LoadDocument : String → Option FPDF_DOCUMENT
  /-- Whether `FPDFBitmap_Create` returns a bitmap, for the page index it is called
  for and the pixel size asked. -/
  FPDFBitmap_Create : Nat → Int → Int → Bool

/-- The struct `PrinterMargins` (lines 23-26). A millimetre value is `none` when the
program's `double` is not finite (a resolution of zero). -/
structure PrinterMargins where
  left : Int
  top : Int
  right : Int
  bottom : Int
  leftMM : Option Double
  topMM : Option Double
  rightMM : Option Double
  bottomMM : Option Double
deriving DecidableEq, Repr

/-- Which `FPDF_LoadPage` call a page handle comes from: the one of line 263 (the
first page, loaded for sizing) or the one of line 299 in the page loop. -/
inductive PageRef where
  | first
  | loop (pageIndex : Nat)
deriving DecidableEq, Repr

/-- The lines the program writes to standard output and standard error. -/
inductive Msg where
  | banner
  | usage
  | manuallySetPrinter
  | useDefaultPrinter
  | noDefaultPrinter
  | usingPrinter (printerName : String)
  | printingFile (pdfFile : String)
  | codePages (acp consoleCP consoleOutputCP : Nat)
  | pdfFileUtf8 (pdfFileUtf8 : String)
  | selectedPrinterHex (printerNameW : String)
  | defaultPrinterHex (printerDefaultNameW : String)
  | sameAsDefault
  | differentFromDefault
  | failedDefaultPrinterSize
  | failedDefaultPrinterName
  | marginReport (margins : PrinterMargins)
  | devModeAndPage
  | failedOpenPrinter
  | failedDevModeSize
  | devModeAllocFailed
  | failedRetrieveDevMode
  | failedCreateDC
  | failedLoadPdf
  | failedLoadFirstPage
  | failedCreatePrinterDC
  | failedLoadPage
  | failedCreateBitmap
  | printedSuccessfully
deriving DecidableEq, Repr

/-- The calls made to the operating system and to PDFium, with their outcome, and
the lines written. -/
inductive Event where
  | out (m : Msg)
  | GetDefaultPrinterW_size
  | GetDefaultPrinterW_name (ok : Bool)
  | OpenPrinterW (printerName : String) (ok : Bool)
  | ClosePrinter
  | DocumentPropertiesW_size
  | malloc (ok : Bool)
  | DocumentPropertiesW_out (ok : Bool)
  | free
  | CreateDCW (printerName : String) (devMode : DEVMODEW) (ok : Bool)
  | DeleteDC
  | FPDF_InitLibrary
  | FPDF_DestroyLibrary
  | FPDF_LoadDocument (pdfPath : String) (ok : Bool)
  | FPDF_CloseDocument
  | FPDF_LoadPage (ref : PageRef) (ok : Bool)
  | FPDF_ClosePage (ref : PageRef)
  | FPDFBitmap_Create (pageIndex : Nat) (width height : Int) (ok : Bool)
  | FPDFBitmap_FillRect (pageIndex : Nat) (width height : Int)
  | FPDF_RenderPageBitmap (pageIndex : Nat) (width height : Int)
  | FPDFBitmap_Destroy (pageIndex : Nat)
  | StartDocW (ok : Bool)
  | EndDoc
  | StartPage (ok : Bool)
  | StretchDIBits (pageIndex : Nat) (x y width height : Int)
  | EndPage
deriving DecidableEq, Repr

/-! ## Encoding conversion (lines 32-83) -/

/-- The function `MultiToWide`: the empty string when the reported length is not positive. -/
def MultiToWide (env : Env) (input : String) (srcCodePage : Nat) : String :=
  match env.MultiByteToWideChar srcCodePage input with
  | none => ""
  | some wideStr => wideStr

/-- The function `WideToMulti`: the empty string when the reported length is not positive. -/
def WideToMulti (env : Env) (input : String) (dstCodePage : Nat) : String :=
  match env.WideCharToMultiByte dstCodePage input with
  | none => ""
  | some destStr => destStr

def ConvertEncoding (env : Env) (input : String) (srcCodePage dstCodePage : Nat) : String :=
  WideToMulti env (MultiToWide env input srcCodePage) dstCodePage

def ConsoleToUtf8 (env : Env) (consoleStr : String) : String :=
  ConvertEncoding env consoleStr env.GetConsoleCP CP_UTF8

/-! ## GetDefaultPrinterName (lines 88-111) -/

def GetDefaultPrinterName (env : Env) : String × List Event :=
  if env.defaultPrinterNeeded = 0 then
    ("", [Event.GetDefaultPrinterW_size, Event.out Msg.failedDefaultPrinterSize])
  else
    match env.GetDefaultPrinterW with
    | none =>
      ("", [Event.GetDefaultPrinterW_size, Event.GetDefaultPrinterW_name false,
            Event.out Msg.failedDefaultPrinterName])
    | some printerNameWC =>
      (printerNameWC, [Event.GetDefaultPrinterW_size, Event.GetDefaultPrinterW_name true])

/-! ## GetPrinterMargins (lines 114-158) -/

/-- Lines 132-135: `(double)margin * 25.4 / dpi`. -/
def pixelsToMM (margin dpi : Int) : Option Double :=
  if dpi = 0 then none
  else some (fdiv (fmul (Double.ofInt margin) literal_25_4) (Double.ofInt dpi))

/-- The function `GetPrinterMargins`. `int` arithmetic is reduced to 32 bits. -/
def GetPrinterMargins (hdcPrinter : HDC) : PrinterMargins × List Event :=
  let dpiX := hdcPrinter.LOGPIXELSX
  let dpiY := hdcPrinter.LOGPIXELSY
  let paperWidth := hdcPrinter.PHYSICALWIDTH
  let paperHeight := hdcPrinter.PHYSICALHEIGHT
  let printWidth := hdcPrinter.HORZRES
  let printHeight := hdcPrinter.VERTRES
  let marginLeft := hdcPrinter.PHYSICALOFFSETX
  let marginTop := hdcPrinter.PHYSICALOFFSETY
  let marginRight := wrapSigned 32 (paperWidth - wrapSigned 32 (printWidth + marginLeft))
  let marginBottom := wrapSigned 32 (paperHeight - wrapSigned 32 (printHeight + marginTop))
  let margins : PrinterMargins :=
    { left := marginLeft, top := marginTop, right := marginRight, bottom := marginBottom,
      leftMM := pixelsToMM marginLeft dpiX,
      topMM := pixelsToMM marginTop dpiY,
      rightMM := pixelsToMM marginRight dpiX,
      bottomMM := pixelsToMM marginBottom dpiY }
  (margins, [Event.out (Msg.marginReport margins)])

/-! ## CreateCustomDCW (lines 196-246) -/

/-- The function `CreateCustomDCW`: the device context returned (`none` for `NULL`)
and the calls made, in order. -/
def CreateCustomDCW (env : Env) (printerName : String) (page : Option FPDF_PAGE) :
    Option HDC × List Event :=
  if env.OpenPrinterW printerName = false then
    (none, [Event.OpenPrinterW printerName false, Event.out Msg.failedOpenPrinter])
  else
    let t1 := [Event.OpenPrinterW printerName true, Event.DocumentPropertiesW_size]
    -- the LONG result is stored in a DWORD
    let dwNeeded : Nat := (env.documentPropertiesSize printerName % 2 ^ 32).toNat
    if dwNeeded ≤ 0 then
      (none, t1 ++ [Event.out Msg.failedDevModeSize, Event.ClosePrinter])
    else if env.malloc dwNeeded = false then
      (none, t1 ++ [Event.malloc false, Event.out Msg.devModeAllocFailed, Event.ClosePrinter])
    else
      let t2 := t1 ++ [Event.malloc true]
      match env.DocumentPropertiesW printerName with
      | none =>
        (none, t2 ++ [Event.DocumentPropertiesW_out false, Event.out Msg.failedRetrieveDevMode,
                      Event.free, Event.ClosePrinter])
      | some devMode =>
        let t3 := t2 ++ [Event.DocumentPropertiesW_out true, Event.out Msg.devModeAndPage]
        let pDevMode := (SetCustomPaperSize (some devMode) page).getD devMode
        match env.CreateDCW printerName pDevMode with
        | none =>
          (none, t3 ++ [Event.CreateDCW printerName pDevMode false, Event.out Msg.failedCreateDC,
                        Event.free, Event.ClosePrinter])
        | some hdcPrinter =>
          (some hdcPrinter, t3 ++ [Event.CreateDCW printerName pDevMode true,
                                   Event.free, Event.ClosePrinter])

/-! ## PrintPDF (lines 249-364) -/

/-- The body of the page loop (lines 298-352) for one page index. -/
def printPage (env : Env) (doc : FPDF_DOCUMENT) (hdcPrinter : HDC)
    (offsetX offsetY dpiX dpiY : Int) (pageIndex : Nat) : List Event :=
  match FPDF_LoadPage doc pageIndex with
  | none => [Event.FPDF_LoadPage (PageRef.loop pageIndex) false, Event.out Msg.failedLoadPage]
  | some page =>
    let pdfWidth := FPDF_GetPageWidth page
    let pdfHeight := FPDF_GetPageHeight page
    let width := toInt (fdiv (fmul pdfWidth (Double.ofInt dpiX)) (Double.ofInt 72))
    let height := toInt (fdiv (fmul pdfHeight (Double.ofInt dpiY)) (Double.ofInt 72))
    if env.FPDFBitmap_Create pageIndex width height = false then
      [Event.FPDF_LoadPage (PageRef.loop pageIndex) true,
       Event.FPDFBitmap_Create pageIndex width height false,
       Event.out Msg.failedCreateBitmap,
       Event.FPDF_ClosePage (PageRef.loop pageIndex)]
    else
      [Event.FPDF_LoadPage (PageRef.loop pageIndex) true,
       Event.FPDFBitmap_Create pageIndex width height true,
       Event.FPDFBitmap_FillRect pageIndex width height,
       Event.FPDF_RenderPageBitmap pageIndex width height] ++
      (if env.StartPage hdcPrinter pageIndex > 0 then
        [Event.StartPage true,
         Event.StretchDIBits pageIndex offsetX offsetY width height,
         Event.EndPage]
       else [Event.StartPage false]) ++
      [Event.FPDFBitmap_Destroy pageIndex, Event.FPDF_ClosePage (PageRef.loop pageIndex)]

/-- The loop `for (pageIndex; pageIndex < pageCount; ++pageIndex)` of line 297, with
`remaining = pageCount - pageIndex` iterations left. -/
def pageLoop (env : Env) (doc : FPDF_DOCUMENT) (hdcPrinter : HDC)
    (offsetX offsetY dpiX dpiY : Int) (pageIndex : Nat) : Nat → List Event
  | 0 => []
  | remaining + 1 =>
    printPage env doc hdcPrinter offsetX offsetY dpiX dpiY pageIndex ++
      pageLoop env doc hdcPrinter offsetX offsetY dpiX dpiY (pageIndex + 1) remaining

/-- Lines 294-356: the print job, from `StartDocW` to `EndDoc`. -/
def printJob (env : Env) (doc : FPDF_DOCUMENT) (hdcPrinter : HDC)
    (offsetX offsetY dpiX dpiY : Int) : List Event :=
  if env.StartDocW hdcPrinter > 0 then
    let pageCount := FPDF_GetPageCount doc
    [Event.StartDocW true] ++
      pageLoop env doc hdcPrinter offsetX offsetY dpiX dpiY 0 pageCount.toNat ++
      [Event.EndDoc]
  else [Event.StartDocW false]

/-- The function `PrintPDF`: the calls made, in order. -/
def PrintPDF (env : Env) (printerName : String) (pdfPath : String) : List Event :=
  match env.FPDF_LoadDocument pdfPath with
  | none =>
    [Event.FPDF_InitLibrary, Event.FPDF_LoadDocument pdfPath false, Event.out Msg.failedLoadPdf]
  | some doc =>
    let t1 := [Event.FPDF_InitLibrary, Event.FPDF_LoadDocument pdfPath true]
    match FPDF_LoadPage doc 0 with
    | none =>
      t1 ++ [Event.FPDF_LoadPage PageRef.first false, Event.out Msg.failedLoadFirstPage,
             Event.FPDF_CloseDocument]
    | some firstPage =>
      let t2 := t1 ++ [Event.FPDF_LoadPage PageRef.first true]
      match CreateCustomDCW env printerName (some firstPage) with
      | (none, tDC) =>
        t2 ++ tDC ++ [Event.out Msg.failedCreatePrinterDC, Event.FPDF_CloseDocument]
      | (some hdcPrinter, tDC) =>
        let margins := GetPrinterMargins hdcPrinter
        let offsetX := wrapSigned 32 (-margins.1.left)
        let offsetY := wrapSigned 32 (-margins.1.top)
        let dpiX := hdcPrinter.LOGPIXELSX
        let dpiY := hdcPrinter.LOGPIXELSY
        t2 ++ tDC ++ margins.2 ++ printJob env doc hdcPrinter offsetX offsetY dpiX dpiY ++
          [Event.DeleteDC, Event.FPDF_CloseDocument, Event.FPDF_DestroyLibrary,
           Event.out Msg.printedSuccessfully]

/-! ## main (lines 378-460) -/

/-- One command-line argument in its two forms: `argv[i]` as the C runtime passes
it to `main`, and element `i` of `GetUtf16Args()`. Both come from the same command
line, so they have the same number of elements. -/
structure Arg where
  narrow : String
  wide : String
deriving DecidableEq, Repr

/-- What `main` does: its own output, and the calls to the two functions that
reach the printer and the file, each with its arguments and its own trace. -/
inductive MainEvent where
  | out (m : Msg)
  | GetDefaultPrinterName (trace : List Event)
  | PrintPDF (printerName pdfPath : String) (trace : List Event)
deriving DecidableEq, Repr

structure MainResult where
  exitCode : Int
  events : List MainEvent
deriving DecidableEq, Repr

/-- The element `argv[i]`. Every path of `main` that reads it has `i < argc`. -/
def argvAt (argv : List Arg) (i : Nat) : String := (argv.getD i ⟨"", ""⟩).narrow

/-- The element `args[i]` of `GetUtf16Args()`. -/
def argsAt (argv : List Arg) (i : Nat) : String := (argv.getD i ⟨"", ""⟩).wide

/-- Lines 410-459 of `main`: the report of the resolved names and the call of
`PrintPDF`. Line 452 compares the addresses of two distinct buffers, which are
never equal. -/
def mainPrint (env : Env) (consoleCP : Nat) (printerName defaultPrinterName pdfFile : String)
    (t : List MainEvent) : MainResult :=
  let pdfFileUtf8 := ConsoleToUtf8 env pdfFile
  let printerNameW := MultiToWide env printerName consoleCP
  let printerDefaultNameW := MultiToWide env defaultPrinterName consoleCP
  ⟨0, t ++
    [MainEvent.out (Msg.usingPrinter printerName),
     MainEvent.out (Msg.printingFile pdfFile),
     MainEvent.out (Msg.codePages env.GetACP consoleCP env.GetConsoleOutputCP),
     MainEvent.out (Msg.pdfFileUtf8 pdfFileUtf8),
     MainEvent.out (Msg.selectedPrinterHex printerNameW),
     MainEvent.out (Msg.defaultPrinterHex printerDefaultNameW),
     MainEvent.out Msg.differentFromDefault,
     MainEvent.PrintPDF printerNameW pdfFileUtf8 (PrintPDF env printerNameW pdfFileUtf8)]⟩

/-- The function `main`; `argc` is the length of `argv`, program name included. -/
def main (env : Env) (argv : List Arg) : MainResult :=
  let argc := argv.length
  if argc < 2 ∨ argc > 4 then
    ⟨1, [MainEvent.out Msg.banner, MainEvent.out Msg.usage]⟩
  else
    let consoleCP := env.GetConsoleCP
    -- (printerName, pdfFile, line written) of lines 392-399
    let sel : String × String × Msg :=
      if argc = 4 ∧ argvAt argv 1 = "-d" then
        (WideToMulti env (argsAt argv 2) consoleCP, WideToMulti env (argsAt argv 3) consoleCP,
          Msg.manuallySetPrinter)
      else
        ("", WideToMulti env (argsAt argv 1) consoleCP, Msg.useDefaultPrinter)
    let printerName := sel.1
    let pdfFile := sel.2.1
    let t1 := [MainEvent.out Msg.banner, MainEvent.out sel.2.2]
    let query := GetDefaultPrinterName env
    let defaultPrinterName := WideToMulti env query.1 consoleCP
    let t2 := t1 ++ [MainEvent.GetDefaultPrinterName query.2]
    if printerName = "" then
      let query2 := GetDefaultPrinterName env
      let printerName2 := WideToMulti env query2.1 consoleCP
      let t3 := t2 ++ [MainEvent.GetDefaultPrinterName query2.2]
      if printerName2 = "" then
        ⟨1, t3 ++ [MainEvent.out Msg.noDefaultPrinter]⟩
      else
        mainPrint env consoleCP printerName2 defaultPrinterName pdfFile t3
    else
      mainPrint env consoleCP printerName defaultPrinterName pdfFile t2

/-! ## Observations on traces -/

/-- The arguments of the `PrintPDF` calls made by `main`, in order. -/
def printPDFCalls : List MainEvent → List (String × String)
  | [] => []
  | MainEvent.PrintPDF printerName pdfPath _ :: es => (printerName, pdfPath) :: printPDFCalls es
  | _ :: es => printPDFCalls es

/-- The calls that reach the print spooler for the job itself. -/
def isSpoolCall : Event → Bool
  | Event.StartDocW _ => true
  | Event.StartPage _ => true
  | Event.StretchDIBits _ _ _ _ _ => true
  | Event.EndPage => true
  | Event.EndDoc => true
  | _ => false

def spoolCalls (t : List Event) : List Event := t.filter isSpoolCall

/-- The spooler calls of a page that is printed: start-page, blit, end-page, with
the pixel size computed at lines 310-311. Empty for a page that does not load. -/
def pageSpoolCalls (doc : FPDF_DOCUMENT) (offsetX offsetY dpiX dpiY : Int)
    (pageIndex : Nat) : List Event :=
  match FPDF_LoadPage doc pageIndex with
  | none => []
  | some page =>
    [Event.StartPage true,
     Event.StretchDIBits pageIndex offsetX offsetY
       (toInt (fdiv (fmul (FPDF_GetPageWidth page) (Double.ofInt dpiX)) (Double.ofInt 72)))
       (toInt (fdiv (fmul (FPDF_GetPageHeight page) (Double.ofInt dpiY)) (Double.ofInt 72))),
     Event.EndPage]

/-- The resources whose lifetime the program manages by hand. -/
inductive Resource where
  | printerHandle
  | devModeBuffer
  | deviceContext
  | document
  | page (ref : PageRef)
  | bitmap (pageIndex : Nat)
deriving DecidableEq, Repr

/-- The resource a successful call hands to the program. -/
def acquires : Event → Option Resource
  | Event.OpenPrinterW _ true => some Resource.printerHandle
  | Event.malloc true => some Resource.devModeBuffer
  | Event.CreateDCW _ _ true => some Resource.deviceContext
  | Event.FPDF_LoadDocument _ true => some Resource.document
  | Event.FPDF_LoadPage ref true => some (Resource.page ref)
  | Event.FPDFBitmap_Create pageIndex _ _ true => some (Resource.bitmap pageIndex)
  | _ => none

/-- The resource a call gives back. -/
def releases : Event → Option Resource
  | Event.ClosePrinter => some Resource.printerHandle
  | Event.free => some Resource.devModeBuffer
  | Event.DeleteDC => some Resource.deviceContext
  | Event.FPDF_CloseDocument => some Resource.document
  | Event.FPDF_ClosePage ref => some (Resource.page ref)
  | Event.FPDFBitmap_Destroy pageIndex => some (Resource.bitmap pageIndex)
  | _ => none

/-- The resources still held after a trace, the most recently acquired first,
starting from the resources `held`. -/
def heldAfter (held : List Resource) : List Event → List Resource
  | [] => held
  | e :: es =>
    match acquires e, releases e with
    | some r, _ => heldAfter (r :: held) es
    | none, some r => heldAfter (held.erase r) es
    | none, none => heldAfter held es

/-! ## Sample inputs -/

/-- A device mode as a driver might return it: A4, portrait, no explicit width. -/
def sampleDevMode : DEVMODEW :=
  { dmFields := 0x2, dmOrientation := 1, dmPaperSize := 9,
    dmPaperLength := 0, dmPaperWidth := 0 }

/-- A page of 591.8125 x 838.4375 points: 2087.78 x 2957.82 tenths of a millimetre. -/
def nearA4Page : FPDF_PAGE := { width := ⟨9469, -4⟩, height := ⟨13415, -4⟩ }

/-- A page of 100 mm x 150 mm: the `double`s nearest to 36000/127 and 54000/127
points, 283.46456692913387 and 425.1968503937008. -/
def slipPage : FPDF_PAGE := { width := roundRat 36000 127, height := roundRat 54000 127 }

/-- A page of 210 mm x 297 mm: the `double`s nearest to 75600/127 and 106920/127
points, 595.2755905511812 and 841.8897637795276. -/
def a4Page : FPDF_PAGE := { width := roundRat 75600 127, height := roundRat 106920 127 }

/-- A page of 100.03125 x 100 points: wider than high by less than 0.1 mm. -/
def almostSquarePage : FPDF_PAGE := { width := ⟨3201, -5⟩, height := ⟨100, 0⟩ }

/-- A page of 595.2755905511812 x 848.9763779527559 points (210 mm x 299.5 mm). -/
def tallA4Page : FPDF_PAGE :=
  { width := ⟨5236099468337991, -43⟩, height := ⟨3733837597064829, -42⟩ }

/-- A page of 2052 x 2051.875 points. -/
def largeSquarePage : FPDF_PAGE := { width := ⟨2052, 0⟩, height := ⟨16415, -3⟩ }

/-- A printer device context at 144 dpi with margins of 10 pixels. -/
def sampleHDC : HDC :=
  { LOGPIXELSX := 144, LOGPIXELSY := 144, PHYSICALWIDTH := 420, PHYSICALHEIGHT := 620,
    HORZRES := 400, VERTRES := 600, PHYSICALOFFSETX := 10, PHYSICALOFFSETY := 10 }

/-- A page of 200 x 300 points. -/
def samplePage : FPDF_PAGE := { width := Double.ofInt 200, height := Double.ofInt 300 }

/-- A document of three pages of 200 x 300 points whose page of index 1 does not load. -/
def sampleDoc : FPDF_DOCUMENT :=
  { pageCount := 3
    loadPage := fun i => if i = 1 then none else if i < 3 then some samplePage else none }

/-- A document of one page of 200 x 300 points. -/
def onePageDoc : FPDF_DOCUMENT :=
  { pageCount := 1, loadPage := fun i => if i = 0 then some samplePage else none }

/-- An environment in which every call succeeds, text conversion keeps the text, the
default printer is "Default Printer" and every path opens `sampleDoc`. -/
def sampleEnv : Env :=
  { GetConsoleCP := 437
    GetACP := 1252
    GetConsoleOutputCP := 437
    WideCharToMultiByte := fun _ s => some s
    MultiByteToWideChar := fun _ s => some s
    defaultPrinterNeeded := 16
    GetDefaultPrinterW := some "Default Printer"
    OpenPrinterW := fun _ => true
    documentPropertiesSize := fun _ => 220
    malloc := fun _ => true
    DocumentPropertiesW := fun _ => some sampleDevMode
    CreateDCW := fun _ _ => some sampleHDC
    StartDocW := fun _ => 1
    StartPage := fun _ _ => 1
    FPDF_LoadDocument := fun _ => some sampleDoc
    FPDFBitmap_Create := fun _ _ _ => true }

/-- The environment `sampleEnv` with a PDF file that does not load. -/
def noDocumentEnv : Env := { sampleEnv with FPDF_LoadDocument := fun _ => none }

/-- The environment `sampleEnv` with a one-page document. -/
def onePageEnv : Env := { sampleEnv with FPDF_LoadDocument := fun _ => some onePageDoc }

/-- The environment `onePageEnv` with a printer driver that refuses the device mode. -/
def noContextEnv : Env := { onePageEnv with CreateDCW := fun _ _ => none }

/-- An argument made of ASCII text: both forms are the same text. -/
def asciiArg (s : String) : Arg := { narrow := s, wide := s }

/-! ## Paper-size selection: theorems -/

set_option maxRecDepth 100000

theorem cast_lt_25 (z : Int) : ((z : ℚ) < 25.0) ↔ z < 25 := by
  have h : (25.0 : ℚ) = ((25 : Int) : ℚ) := by norm_num
  rw [h, Int.cast_lt]

theorem wrapSigned_16_of_fits (z : Int) (h1 : -32768 ≤ z) (h2 : z ≤ 32767) :
    wrapSigned 16 z = z := by
  unfold wrapSigned
  norm_num
  omega

theorem or_and_self_mask (x m : Nat) : (x ||| m) &&& m = m := by
  apply Nat.eq_of_testBit_eq
  intro i
  rw [Nat.testBit_and, Nat.testBit_or]
  cases x.testBit i <;> cases m.testBit i <;> rfl

theorem or_one_and_eight (x : Nat) : (x ||| 1) &&& 8 = x &&& 8 := by
  apply Nat.eq_of_testBit_eq
  intro i
  rw [Nat.testBit_and, Nat.testBit_or, Nat.testBit_and]
  have h8 : (8 : Nat) = 2 ^ 3 := by norm_num
  have h1 : (1 : Nat) = 2 ^ 0 := by norm_num
  rw [h8, h1, Nat.testBit_two_pow, Nat.testBit_two_pow]
  by_cases h : i = 3
  · subst h; simp
  · have : ¬ (3 = i) := fun e => h e.symm
    simp [this]

theorem or_one_and_four (x : Nat) : (x ||| 1) &&& 4 = x &&& 4 := by
  apply Nat.eq_of_testBit_eq
  intro i
  rw [Nat.testBit_and, Nat.testBit_or, Nat.testBit_and]
  have h4 : (4 : Nat) = 2 ^ 2 := by norm_num
  have h1 : (1 : Nat) = 2 ^ 0 := by norm_num
  rw [h4, h1, Nat.testBit_two_pow, Nat.testBit_two_pow]
  by_cases h : i = 2
  · subst h; simp
  · have : ¬ (2 = i) := fun e => h e.symm
    simp [this]

/-- The device mode left by `SetCustomPaperSize` for a non-null device mode and a
non-null page, written with the integer comparison of the stored `short` values. -/
theorem SetCustomPaperSize_eq (dm : DEVMODEW) (pg : FPDF_PAGE) :
    SetCustomPaperSize (some dm) (some pg) =
      some (if (|pdfWidthTenthMM pg - 2100| + |pdfHeightTenthMM pg - 2970| < 25 ∨
                |pdfWidthTenthMM pg - 2970| + |pdfHeightTenthMM pg - 2100| < 25) then
        { dm with
          dmPaperSize := DMPAPER_A4
          dmOrientation := if pdfWidthTenthMM pg > pdfHeightTenthMM pg
            then DMORIENT_LANDSCAPE else DMORIENT_PORTRAIT
          dmFields := dm.dmFields ||| DM_ORIENTATION }
      else
        { dmPaperSize := DMPAPER_USER
          dmPaperWidth := min (pdfWidthTenthMM pg) (pdfHeightTenthMM pg)
          dmPaperLength := max (pdfWidthTenthMM pg) (pdfHeightTenthMM pg)
          dmOrientation := if pdfWidthTenthMM pg > pdfHeightTenthMM pg
            then DMORIENT_LANDSCAPE else DMORIENT_PORTRAIT
          dmFields := dm.dmFields ||| (DM_PAPERWIDTH ||| DM_PAPERLENGTH) |||
            (DM_PAPERWIDTH ||| DM_PAPERLENGTH) ||| DM_ORIENTATION }) := by
  simp only [SetCustomPaperSize, cast_lt_25, A4_WIDTH_TENTH_MM, A4_HEIGHT_TENTH_MM]
  congr 1
  by_cases hc : (|pdfWidthTenthMM pg - 2100| + |pdfHeightTenthMM pg - 2970| < 25 ∨
                |pdfWidthTenthMM pg - 2970| + |pdfHeightTenthMM pg - 2100| < 25)
  · rw [if_pos hc, if_pos hc]
  · rw [if_neg hc, if_neg hc]
    by_cases hwh : pdfWidthTenthMM pg > pdfHeightTenthMM pg
    · have h1 : min (pdfWidthTenthMM pg) (pdfHeightTenthMM pg) = pdfHeightTenthMM pg :=
        min_eq_right (le_of_lt hwh)
      have h2 : max (pdfWidthTenthMM pg) (pdfHeightTenthMM pg) = pdfWidthTenthMM pg :=
        max_eq_left (le_of_lt hwh)
      simp only [if_pos hwh, h1, h2]
    · have hle : pdfWidthTenthMM pg ≤ pdfHeightTenthMM pg := not_lt.mp hwh
      simp only [if_neg hwh, min_eq_left hle, max_eq_right hle]


theorem pdfWidthTenthMM_of_fits (pg : FPDF_PAGE)
    (h1 : -32768 ≤ truncate (widthTenthMM pg)) (h2 : truncate (widthTenthMM pg) ≤ 32767) :
    pdfWidthTenthMM pg = truncate (widthTenthMM pg) :=
  wrapSigned_16_of_fits _ h1 h2

theorem pdfHeightTenthMM_of_fits (pg : FPDF_PAGE)
    (h1 : -32768 ≤ truncate (heightTenthMM pg)) (h2 : truncate (heightTenthMM pg) ≤ 32767) :
    pdfHeightTenthMM pg = truncate (heightTenthMM pg) :=
  wrapSigned_16_of_fits _ h1 h2

/-! ### The binary64 model on known values -/

theorem log2Fuel_eq_log2 (fuel : Nat) : ∀ n, n ≤ fuel → log2Fuel fuel n = Nat.log2 n := by
  induction fuel with
  | zero =>
    intro n h
    have h0 : n = 0 := by omega
    subst h0
    rw [Nat.log2]
    simp [log2Fuel]
  | succ k ih =>
    intro n h
    rw [Nat.log2, log2Fuel]
    by_cases h2 : n ≥ 2
    · rw [if_pos h2, if_pos h2, ih (n / 2) (by omega)]
    · rw [if_neg h2, if_neg h2]

/-- The halving count is the binary logarithm of the library. -/
theorem bitLog2_eq_log2 (n : Nat) : bitLog2 n = Nat.log2 n :=
  log2Fuel_eq_log2 n n (Nat.le_refl n)

/-- The quotient 1.0 / 3.0 is 0x1.5555555555555p-2. -/
theorem fdiv_one_three :
    fdiv (Double.ofInt 1) (Double.ofInt 3) = ⟨6004799503160661, -54⟩ := by decide

/-- The product 0.1 * 3.0 is 0.30000000000000004, one unit in the last place above the
`double` nearest to 0.3. -/
theorem fmul_tenth_three :
    fmul (roundRat 1 10) (Double.ofInt 3) = ⟨5404319552844596, -54⟩ ∧
      roundRat 3 10 = ⟨5404319552844595, -54⟩ := by decide

/-- The literal 25.4 is 7149464408450662 / 2^48, a little below 254/10. -/
theorem literal_25_4_eq : literal_25_4 = ⟨7149464408450662, -48⟩ := by decide

/-- Rounding at work: for a width of 2052 points the exact value is 7239 tenths of a
millimetre, the `double` computed is just below it and 7238 is stored. -/
theorem truncate_widthTenthMM_largeSquarePage :
    truncate (widthTenthMM largeSquarePage) = 7238 := by decide

theorem truncate_heightTenthMM_largeSquarePage :
    truncate (heightTenthMM largeSquarePage) = 7238 := by decide

theorem truncate_widthTenthMM_tallA4Page : truncate (widthTenthMM tallA4Page) = 2100 := by
  decide

/-- For a height of 848.9763779527559 points 2994 is stored (the exact value is a
little above 2995). -/
theorem truncate_heightTenthMM_tallA4Page : truncate (heightTenthMM tallA4Page) = 2994 := by
  decide

theorem truncate_widthTenthMM_slipPage : truncate (widthTenthMM slipPage) = 1000 := by decide

theorem truncate_heightTenthMM_slipPage : truncate (heightTenthMM slipPage) = 1500 := by
  decide

theorem pdfWidthTenthMM_a4Page : pdfWidthTenthMM a4Page = 2100 := by decide

/-- For the height of 297 mm, 841.8897637795276 points, 2969 is stored. -/
theorem pdfHeightTenthMM_a4Page : pdfHeightTenthMM a4Page = 2969 := by decide

theorem pdfWidthTenthMM_nearA4Page : pdfWidthTenthMM nearA4Page = 2087 := by decide

theorem pdfHeightTenthMM_nearA4Page : pdfHeightTenthMM nearA4Page = 2957 := by decide

theorem pdfWidthTenthMM_almostSquarePage : pdfWidthTenthMM almostSquarePage = 352 := by
  decide

theorem pdfHeightTenthMM_almostSquarePage : pdfHeightTenthMM almostSquarePage = 352 := by
  decide

theorem toRat_nearA4Page :
    nearA4Page.width.toRat = 9469 / 16 ∧ nearA4Page.height.toRat = 13415 / 16 := by
  have h1 : nearA4Page.width.toFrac = (9469, 16) := by decide
  have h2 : nearA4Page.height.toFrac = (13415, 16) := by decide
  simp only [Double.toRat, h1, h2]
  norm_num

theorem toRat_almostSquarePage :
    almostSquarePage.width.toRat = 3201 / 32 ∧ almostSquarePage.height.toRat = 100 := by
  have h1 : almostSquarePage.width.toFrac = (3201, 32) := by decide
  have h2 : almostSquarePage.height.toFrac = (100, 1) := by decide
  simp only [Double.toRat, h1, h2]
  norm_num

/-- C1, as stated, fails: the page of 591.8125 x 838.4375 points (both binary64
values) has exact dimensions w = 2087.78 and h = 2957.82 with
|w-2100| + |h-2970| < 25, yet `SetCustomPaperSize` selects the custom identifier,
because the test is made on the truncated values 2087 and 2957 (13 + 13 = 26). -/
theorem SetCustomPaperSize_exact_test_fails :
    nearA4Page.width.isBinary64 = true ∧ nearA4Page.height.isBinary64 = true ∧
      |nearA4Page.width.toRat * 10 * 25.4 / 72 - 2100| +
        |nearA4Page.height.toRat * 10 * 25.4 / 72 - 2970| < (25 : ℚ) ∧
      (SetCustomPaperSize (some sampleDevMode) (some nearA4Page)).map DEVMODEW.dmPaperSize
        = some DMPAPER_USER := by
  refine ⟨by decide, by decide, ?_, ?_⟩
  · rw [toRat_nearA4Page.1, toRat_nearA4Page.2]
    norm_num [abs_lt, abs_of_neg]
  · rw [SetCustomPaperSize_eq, pdfWidthTenthMM_nearA4Page, pdfHeightTenthMM_nearA4Page]
    decide

/-- C1, amended: for every non-null device mode and every page of width W and height H
points, with w and h the values of (W*10*25.4)/72.0 and (H*10*25.4)/72.0 computed in
`double` arithmetic and truncated toward zero to whole tenths of a millimetre, when w
and h fit in a signed 16-bit field, `SetCustomPaperSize` sets dmPaperSize to A4 if and
only if |w-2100| + |h-2970| < 25 or |w-2970| + |h-2100| < 25 (strict), and to
DMPAPER_USER for every other page. -/
theorem SetCustomPaperSize_paperSize (dm : DEVMODEW) (pg : FPDF_PAGE)
    (hw : -32768 ≤ truncate (widthTenthMM pg) ∧ truncate (widthTenthMM pg) ≤ 32767)
    (hh : -32768 ≤ truncate (heightTenthMM pg) ∧ truncate (heightTenthMM pg) ≤ 32767) :
    ((SetCustomPaperSize (some dm) (some pg)).map DEVMODEW.dmPaperSize = some DMPAPER_A4 ↔
      (|truncate (widthTenthMM pg) - 2100| + |truncate (heightTenthMM pg) - 2970| < 25 ∨
       |truncate (widthTenthMM pg) - 2970| + |truncate (heightTenthMM pg) - 2100| < 25)) ∧
    ((SetCustomPaperSize (some dm) (some pg)).map DEVMODEW.dmPaperSize = some DMPAPER_USER ↔
      ¬ (|truncate (widthTenthMM pg) - 2100| + |truncate (heightTenthMM pg) - 2970| < 25 ∨
         |truncate (widthTenthMM pg) - 2970| + |truncate (heightTenthMM pg) - 2100| < 25)) := by
  rw [SetCustomPaperSize_eq, pdfWidthTenthMM_of_fits pg hw.1 hw.2,
    pdfHeightTenthMM_of_fits pg hh.1 hh.2]
  by_cases hc :
      (|truncate (widthTenthMM pg) - 2100| + |truncate (heightTenthMM pg) - 2970| < 25 ∨
       |truncate (widthTenthMM pg) - 2970| + |truncate (heightTenthMM pg) - 2100| < 25)
  · simp [hc, DMPAPER_A4, DMPAPER_USER]
  · simp [hc, DMPAPER_A4, DMPAPER_USER]

/-- C1, witness: the page of 595.2755905511812 x 848.9763779527559 points is stored as
2100 x 2994 tenths of a millimetre (0 + 24 < 25) and gets the A4 identifier. -/
theorem SetCustomPaperSize_paperSize_tallA4 :
    truncate (widthTenthMM tallA4Page) = 2100 ∧ truncate (heightTenthMM tallA4Page) = 2994 ∧
      (SetCustomPaperSize (some sampleDevMode) (some tallA4Page)).map DEVMODEW.dmPaperSize
        = some DMPAPER_A4 := by
  have hw := truncate_widthTenthMM_tallA4Page
  have hh := truncate_heightTenthMM_tallA4Page
  refine ⟨hw, hh, ?_⟩
  apply (SetCustomPaperSize_paperSize sampleDevMode tallA4Page
    ⟨by rw [hw]; decide, by rw [hw]; decide⟩ ⟨by rw [hh]; decide, by rw [hh]; decide⟩).1.mpr
  rw [hw, hh]
  decide

/-- C2: for every non-null device mode and every page that is not selected as A4 (the
test of lines 176-177 fails) and whose dimensions converted to whole tenths of a
millimetre (w, h) fit in a signed 16-bit field, `SetCustomPaperSize` sets dmPaperSize to
custom, dmPaperWidth = min(w, h), dmPaperLength = max(w, h), hence
dmPaperWidth <= dmPaperLength, and sets the paper-width and paper-length bits of
dmFields. -/
theorem SetCustomPaperSize_custom (dm : DEVMODEW) (pg : FPDF_PAGE)
    (hw : -32768 ≤ truncate (widthTenthMM pg) ∧ truncate (widthTenthMM pg) ≤ 32767)
    (hh : -32768 ≤ truncate (heightTenthMM pg) ∧ truncate (heightTenthMM pg) ≤ 32767)
    (hA4 : ¬ (|truncate (widthTenthMM pg) - 2100| + |truncate (heightTenthMM pg) - 2970| < 25 ∨
      |truncate (widthTenthMM pg) - 2970| + |truncate (heightTenthMM pg) - 2100| < 25)) :
    ∃ r, SetCustomPaperSize (some dm) (some pg) = some r ∧
      r.dmPaperSize = DMPAPER_USER ∧
      r.dmPaperWidth = min (truncate (widthTenthMM pg)) (truncate (heightTenthMM pg)) ∧
      r.dmPaperLength = max (truncate (widthTenthMM pg)) (truncate (heightTenthMM pg)) ∧
      r.dmPaperWidth ≤ r.dmPaperLength ∧
      r.dmFields &&& DM_PAPERWIDTH = DM_PAPERWIDTH ∧
      r.dmFields &&& DM_PAPERLENGTH = DM_PAPERLENGTH := by
  rw [SetCustomPaperSize_eq, pdfWidthTenthMM_of_fits pg hw.1 hw.2,
    pdfHeightTenthMM_of_fits pg hh.1 hh.2, if_neg hA4]
  refine ⟨_, rfl, rfl, rfl, rfl, min_le_max, ?_, ?_⟩
  · apply Nat.eq_of_testBit_eq
    intro i
    simp only [Nat.testBit_and, Nat.testBit_or]
    cases (DM_PAPERWIDTH).testBit i <;> simp
  · apply Nat.eq_of_testBit_eq
    intro i
    simp only [Nat.testBit_and, Nat.testBit_or]
    cases (DM_PAPERLENGTH).testBit i <;> simp

/-- C2, witness: a 100 mm x 150 mm page gives custom paper, width 1000, length 1500. -/
theorem SetCustomPaperSize_custom_slip :
    ∃ r, SetCustomPaperSize (some sampleDevMode) (some slipPage) = some r ∧
      r.dmPaperSize = DMPAPER_USER ∧ r.dmPaperWidth = 1000 ∧ r.dmPaperLength = 1500 ∧
      r.dmFields &&& DM_PAPERWIDTH = DM_PAPERWIDTH ∧
      r.dmFields &&& DM_PAPERLENGTH = DM_PAPERLENGTH := by
  have hw := truncate_widthTenthMM_slipPage
  have hh := truncate_heightTenthMM_slipPage
  obtain ⟨r, hr, h1, h2, h3, _, h5, h6⟩ :=
    SetCustomPaperSize_custom sampleDevMode slipPage
      ⟨by rw [hw]; decide, by rw [hw]; decide⟩ ⟨by rw [hh]; decide, by rw [hh]; decide⟩
      (by rw [hw, hh]; decide)
  rw [hw, hh] at h2 h3
  exact ⟨r, hr, h1, h2, h3, h5, h6⟩

/-- C3, as stated, fails: the page of 100.03125 x 100 points (both binary64 values) is
wider than it is high, yet `SetCustomPaperSize` sets portrait, because both dimensions
are stored as 352 tenths of a millimetre. -/
theorem SetCustomPaperSize_wider_page_portrait :
    almostSquarePage.width.isBinary64 = true ∧ almostSquarePage.height.isBinary64 = true ∧
      almostSquarePage.width.toRat > almostSquarePage.height.toRat ∧
      (SetCustomPaperSize (some sampleDevMode) (some almostSquarePage)).map
        DEVMODEW.dmOrientation = some DMORIENT_PORTRAIT := by
  refine ⟨by decide, by decide, ?_, ?_⟩
  · rw [toRat_almostSquarePage.1, toRat_almostSquarePage.2]
    norm_num
  · rw [SetCustomPaperSize_eq, pdfWidthTenthMM_almostSquarePage,
      pdfHeightTenthMM_almostSquarePage]
    decide

/-- C3, amended: for every non-null device mode and every page (A4 or custom), with w
and h the values of (W*10*25.4)/72.0 and (H*10*25.4)/72.0 computed in `double`
arithmetic and truncated toward zero to whole tenths of a millimetre, when w and h fit
in a signed 16-bit field, `SetCustomPaperSize` sets dmOrientation to landscape if and
only if w > h, to portrait otherwise (in particular when w = h), and always sets the
orientation bit of dmFields. -/
theorem SetCustomPaperSize_orientation (dm : DEVMODEW) (pg : FPDF_PAGE)
    (hw : -32768 ≤ truncate (widthTenthMM pg) ∧ truncate (widthTenthMM pg) ≤ 32767)
    (hh : -32768 ≤ truncate (heightTenthMM pg) ∧ truncate (heightTenthMM pg) ≤ 32767) :
    ∃ r, SetCustomPaperSize (some dm) (some pg) = some r ∧
      (r.dmOrientation = DMORIENT_LANDSCAPE ↔
        truncate (widthTenthMM pg) > truncate (heightTenthMM pg)) ∧
      (r.dmOrientation = DMORIENT_PORTRAIT ↔
        truncate (widthTenthMM pg) ≤ truncate (heightTenthMM pg)) ∧
      r.dmFields &&& DM_ORIENTATION = DM_ORIENTATION := by
  rw [SetCustomPaperSize_eq, pdfWidthTenthMM_of_fits pg hw.1 hw.2,
    pdfHeightTenthMM_of_fits pg hh.1 hh.2]
  refine ⟨_, rfl, ?_⟩
  by_cases hc :
      (|truncate (widthTenthMM pg) - 2100| + |truncate (heightTenthMM pg) - 2970| < 25 ∨
       |truncate (widthTenthMM pg) - 2970| + |truncate (heightTenthMM pg) - 2100| < 25)
  · rw [if_pos hc]
    by_cases hwh : truncate (widthTenthMM pg) > truncate (heightTenthMM pg)
    · simp [hwh, DMORIENT_LANDSCAPE, DMORIENT_PORTRAIT, or_and_self_mask]
    · simp [hwh, not_lt.mp hwh, DMORIENT_LANDSCAPE, DMORIENT_PORTRAIT, or_and_self_mask]
  · rw [if_neg hc]
    by_cases hwh : truncate (widthTenthMM pg) > truncate (heightTenthMM pg)
    · simp [hwh, DMORIENT_LANDSCAPE, DMORIENT_PORTRAIT, or_and_self_mask]
    · simp [hwh, not_lt.mp hwh, DMORIENT_LANDSCAPE, DMORIENT_PORTRAIT, or_and_self_mask]

/-- C3, witness: the page of 2052 x 2051.875 points is stored as 7238 x 7238 tenths of a
millimetre and gets portrait, with the orientation bit set. -/
theorem SetCustomPaperSize_orientation_largeSquare :
    truncate (widthTenthMM largeSquarePage) = 7238 ∧
      truncate (heightTenthMM largeSquarePage) = 7238 ∧
      ∃ r, SetCustomPaperSize (some sampleDevMode) (some largeSquarePage) = some r ∧
        r.dmOrientation = DMORIENT_PORTRAIT ∧
        r.dmFields &&& DM_ORIENTATION = DM_ORIENTATION := by
  have hw := truncate_widthTenthMM_largeSquarePage
  have hh := truncate_heightTenthMM_largeSquarePage
  obtain ⟨r, hr, _, h2, h3⟩ := SetCustomPaperSize_orientation sampleDevMode largeSquarePage
    ⟨by rw [hw]; decide, by rw [hw]; decide⟩ ⟨by rw [hh]; decide, by rw [hh]; decide⟩
  exact ⟨hw, hh, r, hr, h2.mpr (by rw [hw, hh]), h3⟩

/-- C8: whenever `SetCustomPaperSize` selects the standard A4 identifier, dmPaperWidth,
dmPaperLength and the paper-width and paper-length bits of dmFields are as on entry;
only dmPaperSize, dmOrientation and the orientation bit change. -/
theorem SetCustomPaperSize_A4_frame (dm r : DEVMODEW) (pg : FPDF_PAGE)
    (hr : SetCustomPaperSize (some dm) (some pg) = some r)
    (hA4 : r.dmPaperSize = DMPAPER_A4) :
    r.dmPaperWidth = dm.dmPaperWidth ∧ r.dmPaperLength = dm.dmPaperLength ∧
      r.dmFields &&& DM_PAPERWIDTH = dm.dmFields &&& DM_PAPERWIDTH ∧
      r.dmFields &&& DM_PAPERLENGTH = dm.dmFields &&& DM_PAPERLENGTH ∧
      r = { dm with dmPaperSize := DMPAPER_A4, dmOrientation := r.dmOrientation,
                    dmFields := dm.dmFields ||| DM_ORIENTATION } := by
  rw [SetCustomPaperSize_eq] at hr
  by_cases hc : (|pdfWidthTenthMM pg - 2100| + |pdfHeightTenthMM pg - 2970| < 25 ∨
                 |pdfWidthTenthMM pg - 2970| + |pdfHeightTenthMM pg - 2100| < 25)
  · rw [if_pos hc] at hr
    cases hr
    refine ⟨rfl, rfl, ?_, ?_, rfl⟩
    · exact or_one_and_eight dm.dmFields
    · exact or_one_and_four dm.dmFields
  · rw [if_neg hc] at hr
    cases hr
    simp [DMPAPER_A4, DMPAPER_USER] at hA4

/-- C8, witness: an A4 page of 210 mm x 297 mm selects A4 and leaves the width and
length of the driver's device mode, and their bits in dmFields, as they were. -/
theorem SetCustomPaperSize_A4_frame_exact :
    ∃ r, SetCustomPaperSize (some sampleDevMode) (some a4Page) = some r ∧
      r.dmPaperSize = DMPAPER_A4 ∧
      r.dmPaperWidth = sampleDevMode.dmPaperWidth ∧
      r.dmPaperLength = sampleDevMode.dmPaperLength ∧
      r.dmFields &&& DM_PAPERWIDTH = sampleDevMode.dmFields &&& DM_PAPERWIDTH ∧
      r.dmFields &&& DM_PAPERLENGTH = sampleDevMode.dmFields &&& DM_PAPERLENGTH := by
  have hr : SetCustomPaperSize (some sampleDevMode) (some a4Page) =
      some { sampleDevMode with dmPaperSize := DMPAPER_A4, dmFields := 0x3 } := by
    rw [SetCustomPaperSize_eq, pdfWidthTenthMM_a4Page, pdfHeightTenthMM_a4Page]
    decide
  have h := SetCustomPaperSize_A4_frame sampleDevMode _ a4Page hr rfl
  exact ⟨_, hr, rfl, h.1, h.2.1, h.2.2.1, h.2.2.2.1⟩

/-! ## main: theorems -/

theorem argsAt_one (prog a : Arg) (rest : List Arg) : argsAt (prog :: a :: rest) 1 = a.wide := rfl

theorem argvAt_one (prog a : Arg) (rest : List Arg) :
    argvAt (prog :: a :: rest) 1 = a.narrow := rfl

theorem printPDFCalls_append (l1 l2 : List MainEvent) :
    printPDFCalls (l1 ++ l2) = printPDFCalls l1 ++ printPDFCalls l2 := by
  induction l1 with
  | nil => rfl
  | cons e es ih =>
    cases e <;> simp [printPDFCalls, ih]

/-- C5: with a number of arguments (program name not counted) outside 1..3, `main`
writes the usage message and returns 1 having made no call at all to the printer
or the PDF engine; with 1 to 3 arguments it never writes the usage message. -/
theorem main_usage_error (env : Env) (prog : Arg) (rest : List Arg) :
    ((rest.length < 1 ∨ 3 < rest.length) →
      main env (prog :: rest) =
        { exitCode := 1, events := [MainEvent.out Msg.banner, MainEvent.out Msg.usage] }) ∧
    ((1 ≤ rest.length ∧ rest.length ≤ 3) →
      MainEvent.out Msg.usage ∉ (main env (prog :: rest)).events) := by
  constructor
  · intro h
    have hc : (prog :: rest).length < 2 ∨ (prog :: rest).length > 4 := by
      simp only [List.length_cons]; omega
    simp only [main, if_pos hc]
  · intro h
    have hc : ¬ ((prog :: rest).length < 2 ∨ (prog :: rest).length > 4) := by
      simp only [List.length_cons]; omega
    simp only [main, if_neg hc, mainPrint]
    split_ifs <;> simp

/-- C5, witness: an invocation with 5 arguments returns 1 after the usage message,
with no printer or file access. -/
theorem main_usage_error_five_arguments :
    main sampleEnv [asciiArg "PDFSlipPrint.exe", asciiArg "a", asciiArg "b", asciiArg "c",
        asciiArg "d", asciiArg "e"] =
      { exitCode := 1, events := [MainEvent.out Msg.banner, MainEvent.out Msg.usage] } :=
  (main_usage_error sampleEnv (asciiArg "PDFSlipPrint.exe")
    [asciiArg "a", asciiArg "b", asciiArg "c", asciiArg "d", asciiArg "e"]).1
    (Or.inr (by decide))

/-- What `main` does when the argument count is accepted and the form is not
`-d <printer> <file>`: the default printer is asked for twice and, when it has a
name, `PrintPDF` is called with it and with the first argument as the file. -/
theorem main_unnamed_eq (env : Env) (argv : List Arg)
    (hc : ¬ (argv.length < 2 ∨ argv.length > 4))
    (hform : ¬ (argv.length = 4 ∧ argvAt argv 1 = "-d")) :
    main env argv =
      if WideToMulti env (GetDefaultPrinterName env).1 env.GetConsoleCP = "" then
        { exitCode := 1
          events := [MainEvent.out Msg.banner, MainEvent.out Msg.useDefaultPrinter,
            MainEvent.GetDefaultPrinterName (GetDefaultPrinterName env).2,
            MainEvent.GetDefaultPrinterName (GetDefaultPrinterName env).2,
            MainEvent.out Msg.noDefaultPrinter] }
      else
        mainPrint env env.GetConsoleCP
          (WideToMulti env (GetDefaultPrinterName env).1 env.GetConsoleCP)
          (WideToMulti env (GetDefaultPrinterName env).1 env.GetConsoleCP)
          (WideToMulti env (argsAt argv 1) env.GetConsoleCP)
          [MainEvent.out Msg.banner, MainEvent.out Msg.useDefaultPrinter,
            MainEvent.GetDefaultPrinterName (GetDefaultPrinterName env).2,
            MainEvent.GetDefaultPrinterName (GetDefaultPrinterName env).2] := by
  simp only [main, if_neg hc, if_neg hform, if_true]
  split_ifs <;> simp

/-- What `main` does for `-d <printer> <file>`. -/
theorem main_named_eq (env : Env) (argv : List Arg)
    (hform : argv.length = 4 ∧ argvAt argv 1 = "-d") :
    main env argv =
      if WideToMulti env (argsAt argv 2) env.GetConsoleCP = "" then
        if WideToMulti env (GetDefaultPrinterName env).1 env.GetConsoleCP = "" then
          { exitCode := 1
            events := [MainEvent.out Msg.banner, MainEvent.out Msg.manuallySetPrinter,
              MainEvent.GetDefaultPrinterName (GetDefaultPrinterName env).2,
              MainEvent.GetDefaultPrinterName (GetDefaultPrinterName env).2,
              MainEvent.out Msg.noDefaultPrinter] }
        else
          mainPrint env env.GetConsoleCP
            (WideToMulti env (GetDefaultPrinterName env).1 env.GetConsoleCP)
            (WideToMulti env (GetDefaultPrinterName env).1 env.GetConsoleCP)
            (WideToMulti env (argsAt argv 3) env.GetConsoleCP)
            [MainEvent.out Msg.banner, MainEvent.out Msg.manuallySetPrinter,
              MainEvent.GetDefaultPrinterName (GetDefaultPrinterName env).2,
              MainEvent.GetDefaultPrinterName (GetDefaultPrinterName env).2]
      else
        mainPrint env env.GetConsoleCP
          (WideToMulti env (argsAt argv 2) env.GetConsoleCP)
          (WideToMulti env (GetDefaultPrinterName env).1 env.GetConsoleCP)
          (WideToMulti env (argsAt argv 3) env.GetConsoleCP)
          [MainEvent.out Msg.banner, MainEvent.out Msg.manuallySetPrinter,
            MainEvent.GetDefaultPrinterName (GetDefaultPrinterName env).2] := by
  have hc : ¬ (argv.length < 2 ∨ argv.length > 4) := by
    rw [hform.1]; decide
  simp only [main, if_neg hc, if_pos hform]
  split_ifs <;> simp

theorem printPDFCalls_mainPrint (env : Env) (cp : Nat) (pn dn f : String)
    (t : List MainEvent) :
    printPDFCalls (mainPrint env cp pn dn f t).events =
      printPDFCalls t ++ [(MultiToWide env pn cp, ConsoleToUtf8 env f)] := by
  simp [mainPrint, printPDFCalls_append, printPDFCalls]

/-- C10: with 1 to 3 arguments that are not exactly three with the first equal to
"-d", `main` behaves as with the first argument alone: it writes no usage message,
takes the default-printer branch, and any `PrintPDF` call gets the default printer and
the first argument as the file; the exit code is 0, or 1 when no default printer is
found. -/
theorem main_unnamed_form (env : Env) (prog a : Arg) (rest : List Arg)
    (hlen : rest.length ≤ 2) (hform : ¬ (rest.length = 2 ∧ a.narrow = "-d")) :
    main env (prog :: a :: rest) = main env [prog, a] ∧
    MainEvent.out Msg.usage ∉ (main env (prog :: a :: rest)).events ∧
    MainEvent.out Msg.useDefaultPrinter ∈ (main env (prog :: a :: rest)).events ∧
    printPDFCalls (main env (prog :: a :: rest)).events =
      (if WideToMulti env (GetDefaultPrinterName env).1 env.GetConsoleCP = "" then []
       else [(MultiToWide env (WideToMulti env (GetDefaultPrinterName env).1 env.GetConsoleCP)
                env.GetConsoleCP,
              ConsoleToUtf8 env (WideToMulti env a.wide env.GetConsoleCP))]) ∧
    (main env (prog :: a :: rest)).exitCode =
      (if WideToMulti env (GetDefaultPrinterName env).1 env.GetConsoleCP = "" then 1 else 0) := by
  have hc : ¬ ((prog :: a :: rest).length < 2 ∨ (prog :: a :: rest).length > 4) := by
    simp only [List.length_cons]; omega
  have hf : ¬ ((prog :: a :: rest).length = 4 ∧ argvAt (prog :: a :: rest) 1 = "-d") := by
    simp only [List.length_cons, argvAt_one]
    intro h
    exact hform ⟨by omega, h.2⟩
  have hc2 : ¬ ([prog, a].length < 2 ∨ [prog, a].length > 4) := by
    simp only [List.length_cons, List.length_nil]; omega
  have hf2 : ¬ ([prog, a].length = 4 ∧ argvAt [prog, a] 1 = "-d") := by
    simp only [List.length_cons, List.length_nil]
    intro h
    omega
  rw [main_unnamed_eq env _ hc hf, main_unnamed_eq env _ hc2 hf2, argsAt_one, argsAt_one]
  refine ⟨rfl, ?_, ?_, ?_, ?_⟩
  · split_ifs <;> simp [mainPrint]
  · split_ifs <;> simp [mainPrint]
  · split_ifs
    · simp [printPDFCalls]
    · simp [printPDFCalls_mainPrint, printPDFCalls]
  · split_ifs <;> rfl

/-- C10, witness: the two-argument invocation `-d file.pdf` is accepted, with "-d"
used as the file path and the default printer as the printer. -/
theorem main_unnamed_form_dash_d_file :
    printPDFCalls (main sampleEnv
        [asciiArg "PDFSlipPrint.exe", asciiArg "-d", asciiArg "file.pdf"]).events =
      [("Default Printer", "-d")] ∧
    MainEvent.out Msg.usage ∉ (main sampleEnv
        [asciiArg "PDFSlipPrint.exe", asciiArg "-d", asciiArg "file.pdf"]).events ∧
    (main sampleEnv
        [asciiArg "PDFSlipPrint.exe", asciiArg "-d", asciiArg "file.pdf"]).exitCode = 0 := by
  have h := main_unnamed_form sampleEnv (asciiArg "PDFSlipPrint.exe") (asciiArg "-d")
    [asciiArg "file.pdf"] (by decide) (by decide)
  refine ⟨?_, h.2.1, ?_⟩
  · rw [h.2.2.2.1]
    decide
  · rw [h.2.2.2.2]
    decide

theorem ConsoleToUtf8_of_roundtrip (env : Env) (w : String)
    (h : MultiToWide env (WideToMulti env w env.GetConsoleCP) env.GetConsoleCP = w) :
    ConsoleToUtf8 env (WideToMulti env w env.GetConsoleCP) = WideToMulti env w CP_UTF8 := by
  unfold ConsoleToUtf8 ConvertEncoding
  rw [h]

/-- C6, as stated, fails: for the invocation `-d "" slip.pdf`, where the conversions
keep every text, the printer passed to `PrintPDF` is the default printer and not the
named (empty) printer. -/
theorem main_empty_named_printer :
    printPDFCalls (main sampleEnv
        [asciiArg "PDFSlipPrint.exe", asciiArg "-d", asciiArg "", asciiArg "slip.pdf"]).events =
      [("Default Printer", "slip.pdf")] ∧
    MultiToWide sampleEnv (WideToMulti sampleEnv "" sampleEnv.GetConsoleCP)
      sampleEnv.GetConsoleCP = "" ∧
    MultiToWide sampleEnv (WideToMulti sampleEnv "slip.pdf" sampleEnv.GetConsoleCP)
      sampleEnv.GetConsoleCP = "slip.pdf" := by
  refine ⟨?_, rfl, rfl⟩
  rw [main_named_eq sampleEnv
    [asciiArg "PDFSlipPrint.exe", asciiArg "-d", asciiArg "", asciiArg "slip.pdf"] ⟨rfl, rfl⟩]
  decide

/-- C6, amended: when the code-page conversions of P, F and the default printer name
round-trip losslessly: for `-d P F` with P not empty in the console code page, the
printer passed to `PrintPDF` is P and the file is F (in UTF-8); for `-d P F` with P
empty and for the single argument F, `PrintPDF` is called, when a default printer is
found, with the system default printer and the file F. -/
theorem main_resolves_printer_and_file (env : Env) (prog d p f : Arg)
    (hd : d.narrow = "-d")
    (hP : MultiToWide env (WideToMulti env p.wide env.GetConsoleCP) env.GetConsoleCP = p.wide)
    (hF : MultiToWide env (WideToMulti env f.wide env.GetConsoleCP) env.GetConsoleCP = f.wide)
    (hD : MultiToWide env (WideToMulti env (GetDefaultPrinterName env).1 env.GetConsoleCP)
      env.GetConsoleCP = (GetDefaultPrinterName env).1) :
    (WideToMulti env p.wide env.GetConsoleCP ≠ "" →
      printPDFCalls (main env [prog, d, p, f]).events =
        [(p.wide, WideToMulti env f.wide CP_UTF8)]) ∧
    (WideToMulti env p.wide env.GetConsoleCP = "" →
      printPDFCalls (main env [prog, d, p, f]).events =
        if WideToMulti env (GetDefaultPrinterName env).1 env.GetConsoleCP = "" then []
        else [((GetDefaultPrinterName env).1, WideToMulti env f.wide CP_UTF8)]) ∧
    printPDFCalls (main env [prog, f]).events =
      (if WideToMulti env (GetDefaultPrinterName env).1 env.GetConsoleCP = "" then []
       else [((GetDefaultPrinterName env).1, WideToMulti env f.wide CP_UTF8)]) := by
  have hform : [prog, d, p, f].length = 4 ∧ argvAt [prog, d, p, f] 1 = "-d" := ⟨rfl, hd⟩
  have h2 : argsAt [prog, d, p, f] 2 = p.wide := rfl
  have h3 : argsAt [prog, d, p, f] 3 = f.wide := rfl
  have hc1 : ¬ ([prog, f].length < 2 ∨ [prog, f].length > 4) := by
    simp only [List.length_cons, List.length_nil]; omega
  have hf1 : ¬ ([prog, f].length = 4 ∧ argvAt [prog, f] 1 = "-d") := by
    simp only [List.length_cons, List.length_nil]
    intro h
    omega
  refine ⟨?_, ?_, ?_⟩
  · intro hne
    rw [main_named_eq env _ hform, h2, h3, if_neg hne, printPDFCalls_mainPrint, hP,
      ConsoleToUtf8_of_roundtrip env _ hF]
    simp [printPDFCalls]
  · intro he
    rw [main_named_eq env _ hform, h2, h3, if_pos he]
    split_ifs
    · simp [printPDFCalls]
    · rw [printPDFCalls_mainPrint, hD, ConsoleToUtf8_of_roundtrip env _ hF]
      simp [printPDFCalls]
  · rw [main_unnamed_eq env _ hc1 hf1, argsAt_one]
    split_ifs
    · simp [printPDFCalls]
    · rw [printPDFCalls_mainPrint, hD, ConsoleToUtf8_of_roundtrip env _ hF]
      simp [printPDFCalls]

/-- C6, witness: `-d "Slip Printer" slip.pdf` prints slip.pdf on "Slip Printer", and
the single argument slip.pdf prints it on the default printer. -/
theorem main_resolves_printer_and_file_sample :
    printPDFCalls (main sampleEnv [asciiArg "PDFSlipPrint.exe", asciiArg "-d",
        asciiArg "Slip Printer", asciiArg "slip.pdf"]).events =
      [("Slip Printer", "slip.pdf")] ∧
    printPDFCalls (main sampleEnv [asciiArg "PDFSlipPrint.exe", asciiArg "slip.pdf"]).events =
      [("Default Printer", "slip.pdf")] := by
  have h := main_resolves_printer_and_file sampleEnv (asciiArg "PDFSlipPrint.exe")
    (asciiArg "-d") (asciiArg "Slip Printer") (asciiArg "slip.pdf") rfl rfl rfl rfl
  refine ⟨?_, ?_⟩
  · rw [h.1 (by decide)]
    rfl
  · rw [h.2.2]
    decide

/-- C4, as stated, fails: when the PDF document does not load, `PrintPDF` stops after
its error message and `main` still returns 0. -/
theorem main_returns_zero_when_document_fails :
    PrintPDF noDocumentEnv "Default Printer" "slip.pdf" =
      [Event.FPDF_InitLibrary, Event.FPDF_LoadDocument "slip.pdf" false,
        Event.out Msg.failedLoadPdf] ∧
    MainEvent.PrintPDF "Default Printer" "slip.pdf"
        [Event.FPDF_InitLibrary, Event.FPDF_LoadDocument "slip.pdf" false,
          Event.out Msg.failedLoadPdf] ∈
      (main noDocumentEnv [asciiArg "PDFSlipPrint.exe", asciiArg "slip.pdf"]).events ∧
    (main noDocumentEnv [asciiArg "PDFSlipPrint.exe", asciiArg "slip.pdf"]).exitCode = 0 := by
  refine ⟨by decide, by decide, by decide⟩

/-- C4, amended: `main` returns 1 when the number of arguments is outside 1..3, and
when no printer name is resolved (no non-empty `-d` printer and no default printer
name); in every other case it calls `PrintPDF` once and returns 0 whatever `PrintPDF`
does: document, first page, printer, device mode or device context failing, pages
skipped, or the job complete. -/
theorem main_exitCode (env : Env) (argv : List Arg) :
    ((argv.length < 2 ∨ argv.length > 4) → (main env argv).exitCode = 1) ∧
    (¬ (argv.length < 2 ∨ argv.length > 4) →
      (if argv.length = 4 ∧ argvAt argv 1 = "-d"
        then WideToMulti env (argsAt argv 2) env.GetConsoleCP else "") = "" →
      WideToMulti env (GetDefaultPrinterName env).1 env.GetConsoleCP = "" →
      (main env argv).exitCode = 1 ∧ printPDFCalls (main env argv).events = []) ∧
    (¬ (argv.length < 2 ∨ argv.length > 4) →
      ¬ ((if argv.length = 4 ∧ argvAt argv 1 = "-d"
          then WideToMulti env (argsAt argv 2) env.GetConsoleCP else "") = "" ∧
        WideToMulti env (GetDefaultPrinterName env).1 env.GetConsoleCP = "") →
      (main env argv).exitCode = 0 ∧ (printPDFCalls (main env argv).events).length = 1) := by
  refine ⟨?_, ?_, ?_⟩
  · intro hc
    simp only [main, if_pos hc]
  · intro hc hreq hdef
    by_cases hform : argv.length = 4 ∧ argvAt argv 1 = "-d"
    · rw [if_pos hform] at hreq
      rw [main_named_eq env _ hform, if_pos hreq, if_pos hdef]
      exact ⟨rfl, rfl⟩
    · rw [main_unnamed_eq env _ hc hform, if_pos hdef]
      exact ⟨rfl, rfl⟩
  · intro hc hne
    by_cases hform : argv.length = 4 ∧ argvAt argv 1 = "-d"
    · rw [if_pos hform] at hne
      rw [main_named_eq env _ hform]
      by_cases hreq : WideToMulti env (argsAt argv 2) env.GetConsoleCP = ""
      · have hdef : ¬ WideToMulti env (GetDefaultPrinterName env).1 env.GetConsoleCP = "" :=
          fun h => hne ⟨hreq, h⟩
        rw [if_pos hreq, if_neg hdef, printPDFCalls_mainPrint]
        exact ⟨rfl, rfl⟩
      · rw [if_neg hreq, printPDFCalls_mainPrint]
        exact ⟨rfl, rfl⟩
    · rw [if_neg hform] at hne
      have hdef : ¬ WideToMulti env (GetDefaultPrinterName env).1 env.GetConsoleCP = "" :=
        fun h => hne ⟨rfl, h⟩
      rw [main_unnamed_eq env _ hc hform, if_neg hdef, printPDFCalls_mainPrint]
      exact ⟨rfl, rfl⟩

/-- C4, witness: with five arguments `main` returns 1; with the file alone and a
default printer it returns 0 after one `PrintPDF` call, here with a skipped page. -/
theorem main_exitCode_sample :
    (main sampleEnv [asciiArg "PDFSlipPrint.exe", asciiArg "a", asciiArg "b", asciiArg "c",
        asciiArg "d", asciiArg "e"]).exitCode = 1 ∧
    (main sampleEnv [asciiArg "PDFSlipPrint.exe", asciiArg "slip.pdf"]).exitCode = 0 :=
  ⟨(main_exitCode sampleEnv _).1 (Or.inr (by decide)),
   ((main_exitCode sampleEnv [asciiArg "PDFSlipPrint.exe", asciiArg "slip.pdf"]).2.2
      (by decide) (by decide)).1⟩

/-! ## The page loop: theorems -/

theorem spoolCalls_append (l1 l2 : List Event) :
    spoolCalls (l1 ++ l2) = spoolCalls l1 ++ spoolCalls l2 :=
  List.filter_append l1 l2

/-- A page that does not load contributes no spooler call. -/
theorem spoolCalls_printPage_load_fails (env : Env) (doc : FPDF_DOCUMENT) (hdc : HDC)
    (offsetX offsetY dpiX dpiY : Int) (i : Nat) (h : FPDF_LoadPage doc i = none) :
    spoolCalls (printPage env doc hdc offsetX offsetY dpiX dpiY i) = [] := by
  simp [printPage, h, spoolCalls, isSpoolCall]

/-- A page whose bitmap cannot be created contributes no spooler call. -/
theorem spoolCalls_printPage_bitmap_fails (env : Env) (doc : FPDF_DOCUMENT) (hdc : HDC)
    (offsetX offsetY dpiX dpiY : Int) (i : Nat) (page : FPDF_PAGE)
    (h : FPDF_LoadPage doc i = some page)
    (hb : env.FPDFBitmap_Create i
      (toInt (fdiv (fmul (FPDF_GetPageWidth page) (Double.ofInt dpiX)) (Double.ofInt 72)))
      (toInt (fdiv (fmul (FPDF_GetPageHeight page) (Double.ofInt dpiY)) (Double.ofInt 72)))
        = false) :
    spoolCalls (printPage env doc hdc offsetX offsetY dpiX dpiY i) = [] := by
  simp [printPage, h, hb, spoolCalls, isSpoolCall]

/-- A page that loads, gets its bitmap and starts its page is spooled. -/
theorem spoolCalls_printPage_ok (env : Env) (doc : FPDF_DOCUMENT) (hdc : HDC)
    (offsetX offsetY dpiX dpiY : Int) (i : Nat) (page : FPDF_PAGE)
    (h : FPDF_LoadPage doc i = some page)
    (hb : ∀ w h, env.FPDFBitmap_Create i w h = true)
    (hs : env.StartPage hdc i > 0) :
    spoolCalls (printPage env doc hdc offsetX offsetY dpiX dpiY i) =
      pageSpoolCalls doc offsetX offsetY dpiX dpiY i := by
  simp [printPage, pageSpoolCalls, h, hb, hs, spoolCalls, isSpoolCall]

/-- The loop visits every index from `start` on, in increasing order, whatever
happens to each page. -/
theorem spoolCalls_pageLoop (env : Env) (doc : FPDF_DOCUMENT) (hdc : HDC)
    (offsetX offsetY dpiX dpiY : Int) (n : Nat) :
    ∀ start : Nat,
      spoolCalls (pageLoop env doc hdc offsetX offsetY dpiX dpiY start n) =
        (List.range' start n).flatMap
          (fun i => spoolCalls (printPage env doc hdc offsetX offsetY dpiX dpiY i)) := by
  induction n with
  | zero => intro start; rfl
  | succ n ih =>
    intro start
    rw [pageLoop, spoolCalls_append, ih (start + 1), List.range'_succ, List.flatMap_cons]

theorem flatMap_filter_of_eq {α β : Type} (p : α → Bool) (f g : α → List β) :
    ∀ l : List α, (∀ a ∈ l, f a = if p a then g a else []) →
      l.flatMap f = (l.filter p).flatMap g := by
  intro l
  induction l with
  | nil => intro _; rfl
  | cons a l ih =>
    intro h
    have ha := h a (List.mem_cons_self a l)
    have hl := ih (fun b hb => h b (List.mem_cons_of_mem a hb))
    rw [List.flatMap_cons, hl, ha]
    cases hp : p a
    · simp [List.filter_cons, hp]
    · simp [List.filter_cons, hp, List.flatMap_cons]

theorem length_range_filter_ne (N k : Nat) (h : k < N) :
    ((List.range N).filter (fun i => i != k)).length = N - 1 := by
  rw [← List.Nodup.erase_eq_filter (List.nodup_range N),
    List.length_erase_of_mem (List.mem_range.mpr h), List.length_range]

/-- C7: in the print job of `PrintPDF`, once `StartDocW` has succeeded, for a document
of N pages in which exactly the page k fails to load and every other page loads, gets
its bitmap and starts its page, the spooler calls are: start-document, then start-page,
blit, end-page for each of the N-1 other pages in increasing order, then end-document. -/
theorem printJob_skips_failed_page (env : Env) (doc : FPDF_DOCUMENT) (hdc : HDC)
    (offsetX offsetY dpiX dpiY : Int) (N k : Nat)
    (hstart : env.StartDocW hdc > 0)
    (hN : FPDF_GetPageCount doc = (N : Int))
    (hk : k < N)
    (hload : ∀ i, i < N → (FPDF_LoadPage doc i = none ↔ i = k))
    (hbitmap : ∀ i w h, i < N → i ≠ k → env.FPDFBitmap_Create i w h = true)
    (hpage : ∀ i, i < N → i ≠ k → env.StartPage hdc i > 0) :
    spoolCalls (printJob env doc hdc offsetX offsetY dpiX dpiY) =
        [Event.StartDocW true] ++
          ((List.range N).filter (fun i => i != k)).flatMap
            (pageSpoolCalls doc offsetX offsetY dpiX dpiY) ++
          [Event.EndDoc] ∧
      ((List.range N).filter (fun i => i != k)).length = N - 1 ∧
      (∀ i ∈ (List.range N).filter (fun i => i != k),
        (pageSpoolCalls doc offsetX offsetY dpiX dpiY i).length = 3) := by
  refine ⟨?_, length_range_filter_ne N k hk, ?_⟩
  · have hcount : (FPDF_GetPageCount doc).toNat = N := by rw [hN]; exact Int.toNat_natCast N
    have hpages : (List.range' 0 N).flatMap
        (fun i => spoolCalls (printPage env doc hdc offsetX offsetY dpiX dpiY i)) =
        ((List.range' 0 N).filter (fun i => i != k)).flatMap
          (pageSpoolCalls doc offsetX offsetY dpiX dpiY) := by
      apply flatMap_filter_of_eq
      intro i hi
      have hiN : i < N := by
        rw [← List.range_eq_range'] at hi
        exact List.mem_range.mp hi
      by_cases hik : i = k
      · have hnone : FPDF_LoadPage doc i = none := (hload i hiN).mpr hik
        simp [hik, spoolCalls_printPage_load_fails env doc hdc offsetX offsetY dpiX dpiY k
          (hik ▸ hnone)]
      · have hsome : FPDF_LoadPage doc i ≠ none := fun h => hik ((hload i hiN).mp h)
        obtain ⟨page, hpg⟩ := Option.ne_none_iff_exists'.mp hsome
        rw [spoolCalls_printPage_ok env doc hdc offsetX offsetY dpiX dpiY i page hpg
          (fun w h => hbitmap i w h hiN hik) (hpage i hiN hik)]
        simp [hik]
    unfold printJob
    rw [if_pos hstart]
    simp only [spoolCalls_append, spoolCalls_pageLoop, hcount, hpages, List.range_eq_range']
    rfl
  · intro i hi
    have hi2 := List.mem_filter.mp hi
    have hiN : i < N := List.mem_range.mp hi2.1
    have hik : i ≠ k := by simpa using hi2.2
    have hsome : FPDF_LoadPage doc i ≠ none := fun h => hik ((hload i hiN).mp h)
    obtain ⟨page, hpg⟩ := Option.ne_none_iff_exists'.mp hsome
    simp [pageSpoolCalls, hpg]

/-- C7, witness: for the three-page document whose page 1 does not load, pages 0 and
2 are spooled, in that order, between start-document and end-document. -/
theorem printJob_skips_failed_page_sample :
    spoolCalls (printJob sampleEnv sampleDoc sampleHDC (-10) (-10) 144 144) =
      [Event.StartDocW true,
       Event.StartPage true, Event.StretchDIBits 0 (-10) (-10) 400 600, Event.EndPage,
       Event.StartPage true, Event.StretchDIBits 2 (-10) (-10) 400 600, Event.EndPage,
       Event.EndDoc] := by
  have h := (printJob_skips_failed_page sampleEnv sampleDoc sampleHDC (-10) (-10) 144 144 3 1
    (by decide) rfl (by decide)
    (by
      intro i hi
      interval_cases i <;> simp [FPDF_LoadPage, sampleDoc])
    (fun _ _ _ _ _ => rfl)
    (fun _ _ _ => by show (0 : Int) < 1; decide)).1
  rw [h]
  have e : (List.range 3).filter (fun i => i != 1) = [0, 2] := by decide
  rw [e]
  decide

/-! ## Resources: theorems -/

theorem not_mem_printPage_closeFirst (env : Env) (doc : FPDF_DOCUMENT) (hdc : HDC)
    (offsetX offsetY dpiX dpiY : Int) (i : Nat) :
    Event.FPDF_ClosePage PageRef.first ∉ printPage env doc hdc offsetX offsetY dpiX dpiY i := by
  unfold printPage
  cases FPDF_LoadPage doc i with
  | none => simp
  | some page =>
    simp only []
    split
    · simp
    · split <;> simp

theorem not_mem_pageLoop_closeFirst (env : Env) (doc : FPDF_DOCUMENT) (hdc : HDC)
    (offsetX offsetY dpiX dpiY : Int) (n : Nat) :
    ∀ start : Nat, Event.FPDF_ClosePage PageRef.first ∉
      pageLoop env doc hdc offsetX offsetY dpiX dpiY start n := by
  induction n with
  | zero => intro start; simp [pageLoop]
  | succ n ih =>
    intro start
    rw [pageLoop, List.mem_append]
    intro h
    rcases h with h | h
    · exact not_mem_printPage_closeFirst env doc hdc offsetX offsetY dpiX dpiY start h
    · exact ih (start + 1) h

theorem not_mem_CreateCustomDCW_closeFirst (env : Env) (printerName : String)
    (page : Option FPDF_PAGE) :
    Event.FPDF_ClosePage PageRef.first ∉ (CreateCustomDCW env printerName page).2 := by
  unfold CreateCustomDCW
  split
  · simp
  · simp only []
    split
    · simp
    · split
      · simp
      · cases env.DocumentPropertiesW printerName with
        | none => simp
        | some devMode =>
          simp only []
          cases env.CreateDCW printerName ((SetCustomPaperSize (some devMode) page).getD devMode)
            <;> simp

/-- On every path `CreateCustomDCW` has released the printer handle and the
device-mode buffer when it returns; it leaves open the device context it returns,
and nothing when it returns `NULL`. -/
theorem heldAfter_CreateCustomDCW (env : Env) (printerName : String)
    (page : Option FPDF_PAGE) :
    heldAfter [] (CreateCustomDCW env printerName page).2 =
      if (CreateCustomDCW env printerName page).1.isSome then [Resource.deviceContext]
      else [] := by
  unfold CreateCustomDCW
  split
  · rfl
  · simp only []
    split
    · rfl
    · split
      · rfl
      · cases env.DocumentPropertiesW printerName with
        | none => rfl
        | some devMode =>
          simp only []
          split <;> split <;> simp_all [heldAfter, acquires, releases]

/-- When the document and its first page load and the device context is created,
`PrintPDF` runs the print job between the set-up calls and the final clean-up. -/
theorem PrintPDF_eq_of_context (env : Env) (printerName pdfPath : String)
    (doc : FPDF_DOCUMENT) (firstPage : FPDF_PAGE) (hdc : HDC) (tDC : List Event)
    (hdoc : env.FPDF_LoadDocument pdfPath = some doc)
    (hfirst : FPDF_LoadPage doc 0 = some firstPage)
    (hctx : CreateCustomDCW env printerName (some firstPage) = (some hdc, tDC)) :
    PrintPDF env printerName pdfPath =
      [Event.FPDF_InitLibrary, Event.FPDF_LoadDocument pdfPath true,
        Event.FPDF_LoadPage PageRef.first true] ++ tDC ++ (GetPrinterMargins hdc).2 ++
      printJob env doc hdc (wrapSigned 32 (-hdc.PHYSICALOFFSETX))
        (wrapSigned 32 (-hdc.PHYSICALOFFSETY)) hdc.LOGPIXELSX hdc.LOGPIXELSY ++
      [Event.DeleteDC, Event.FPDF_CloseDocument, Event.FPDF_DestroyLibrary,
        Event.out Msg.printedSuccessfully] := by
  simp [PrintPDF, hdoc, hfirst, hctx, GetPrinterMargins]

/-- On no path does `PrintPDF` close the page it loads at line 263. -/
theorem PrintPDF_never_closes_first_page (env : Env) (printerName pdfPath : String) :
    Event.FPDF_ClosePage PageRef.first ∉ PrintPDF env printerName pdfPath := by
  unfold PrintPDF
  split
  · simp
  · split
    · simp
    · split
      · rename_i tDC heq
        have h := not_mem_CreateCustomDCW_closeFirst env printerName (some ‹FPDF_PAGE›)
        rw [heq] at h
        simp only [List.mem_append, not_or]
        refine ⟨⟨by simp, h⟩, by simp⟩
      · rename_i hdcPrinter tDC heq
        have h := not_mem_CreateCustomDCW_closeFirst env printerName (some ‹FPDF_PAGE›)
        rw [heq] at h
        simp only [List.mem_append, not_or, printJob, GetPrinterMargins]
        refine ⟨⟨⟨⟨by simp, h⟩, by simp⟩, ?_⟩, by simp⟩
        split_ifs
        · simp only [List.mem_append, not_or]
          exact ⟨⟨by simp, not_mem_pageLoop_closeFirst _ _ _ _ _ _ _ _ _⟩, by simp⟩
        · simp

/-- C9, at a one-page document with every call succeeding, and at the same document
with `CreateDCW` failing: when `PrintPDF` returns, the first page loaded at line 263
is still open (no `FPDF_ClosePage` is ever made for it), every other resource having
been released. -/
theorem PrintPDF_leaves_first_page_open :
    heldAfter [] (PrintPDF onePageEnv "Default Printer" "slip.pdf") =
      [Resource.page PageRef.first] ∧
    heldAfter [] (PrintPDF noContextEnv "Default Printer" "slip.pdf") =
      [Resource.page PageRef.first] ∧
    heldAfter [] (CreateCustomDCW onePageEnv "Default Printer" (some samplePage)).2 =
      [Resource.deviceContext] ∧
    heldAfter [] (CreateCustomDCW noContextEnv "Default Printer" (some samplePage)).2 = [] := by
  refine ⟨by decide, by decide, by decide, by decide⟩

end PDFSlipPrint
